import Mathlib

/-!
Verification of the kaizen continual-learning data pipeline and
distillation loss coupling.

The development shallowly embeds the two source files:
* `src/kaizen/distillers/predictive.py` (`PredictiveDistillWrapper`), and
* `src/kaizen/utils/classification_dataloader.py` (`prepare_data` and its
  helpers).

Python floats are embedded as exact rationals (`ℚ`); Python exceptions are
embedded as `Except` with an explicit error type; tensors/embeddings are an
abstract type parameter, with the loss function and predictor head kept as
function parameters.  Helper routines that `prepare_data` calls but whose
definitions live outside the two source files (`split_dataset` and
`split_dataset_subset` from `kaizen.utils.pretrain_dataloader`, the external
`sklearn.model_selection.train_test_split`, and `torch`'s `Subset` /
`ConcatDataset` / `DataLoader`) are modelled from the specification's
contracts; each such definition carries a doc comment saying so.
-/

namespace Kaizen

/-! ## Distiller: src/kaizen/distillers/predictive.py -/

/-- `PredictiveDistillWrapper.training_step` (predictive.py lines 54-66).
`E` is the embedding space; `distill_predictor` is the learned predictor head;
`byol_loss_func` is the regression loss (defined in `kaizen.losses.byol`,
outside the given sources, hence kept abstract); `primary_loss` is
`out["loss"]` from the wrapped method's step; `z1 z2` are student embeddings
and `frozen_z1 frozen_z2` the frozen teacher embeddings from `out`. -/
def training_step {E : Type} (distill_lamb : ℚ) (distill_predictor : E → E)
    (byol_loss_func : E → E → ℚ) (primary_loss : ℚ)
    (z1 z2 frozen_z1 frozen_z2 : E) : ℚ :=
  let p1 := distill_predictor z1
  let p2 := distill_predictor z2
  let distill_loss := (byol_loss_func p1 frozen_z1 + byol_loss_func p2 frozen_z2) / 2
  primary_loss + distill_lamb * distill_loss

/-- The spec's wording of the combined per-step loss, written independently of
the code for refinement comparison: predictor outputs `p1 = predictor(z1)`,
`p2 = predictor(z2)`, symmetric regression loss
`(loss_fn(p1, frozen_z1) + loss_fn(p2, frozen_z2)) / 2`, and final loss
`primary_loss + distill_lamb * distill_loss`. -/
def spec_combined_loss {E : Type} (distill_lamb : ℚ) (predictor : E → E)
    (loss_fn : E → E → ℚ) (primary_loss : ℚ) (z1 z2 frozen_z1 frozen_z2 : E) : ℚ :=
  primary_loss +
    distill_lamb *
      ((loss_fn (predictor z1) frozen_z1 + loss_fn (predictor z2) frozen_z2) / 2)

/-- Python float division, which raises `ZeroDivisionError` on a zero
denominator: embedded as a partial operation. -/
def qdiv (a b : ℚ) : Option ℚ :=
  if b = 0 then none else some (a / b)

/-- The learning rate of the `distill_predictor` parameter group
(predictive.py line 48): `self.lr if self.distill_lamb >= 1 else
self.lr / self.distill_lamb`.  `none` models the raised
`ZeroDivisionError` when the else-branch divides by zero. -/
def distill_predictor_lr (lr distill_lamb : ℚ) : Option ℚ :=
  if 1 ≤ distill_lamb then some lr else qdiv lr distill_lamb

/-- One entry of the optimizer parameter-group list (predictive.py
lines 44-51); the tensor contents of `params` are irrelevant here. -/
structure ParamGroup where
  group_name : String
  lr : ℚ
  weight_decay : ℚ
deriving DecidableEq

/-- `PredictiveDistillWrapper.learnable_params` (predictive.py lines 36-52):
the parent's parameter groups plus the `distill_predictor` group.  `none`
models the exception escaping when the learning-rate computation divides by
zero. -/
def learnable_params (parent : List ParamGroup) (lr weight_decay distill_lamb : ℚ) :
    Option (List ParamGroup) :=
  (distill_predictor_lr lr distill_lamb).map fun plr =>
    parent ++ [{ group_name := "distill_predictor", lr := plr, weight_decay := weight_decay }]

/-! ## Data pipeline: src/kaizen/utils/classification_dataloader.py

The pipeline operates on datasets of labelled samples.  Following the spec's
data model, a dataset is an ordered, indexable collection of (sample, label)
pairs exposing a `targets` list for stratification.  Sample payloads and
labels are both embedded as `Nat`. -/

/-- One (sample, label) pair: `x` identifies the sample payload, `y` is its
class label (the entry of `targets`). -/
structure DSample where
  x : Nat
  y : Nat
deriving DecidableEq

/-- An ordered dataset of labelled samples. -/
structure DataSet where
  items : List DSample
deriving DecidableEq

/-- The `targets` attribute used for stratification. -/
def DataSet.targets (d : DataSet) : List Nat :=
  d.items.map DSample.y

/-- Errors surfaced by data preparation.  `configurationError` embeds the
exceptions the spec groups under ConfigurationError (classification_dataloader
raises a bare `Exception` for the all_tasks/replay clash; the spec names that
category ConfigurationError).  `nameError` embeds the `NameError` a fall-
through of the `training_data_source` dispatch would produce when
`split_train_dataset` is first read. -/
inductive PrepError where
  | configurationError (msg : String)
  | nameError (msg : String)
deriving DecidableEq

/-- Modelled from the spec: the task-assignment function
`task_of(sample) -> task_id` induced by the split strategy (spec section 3).
The concrete grouping algorithm lives in `kaizen.utils.pretrain_dataloader`,
which is not among the given sources.  When an explicit `tasks` grouping
(lists of class ids) is supplied, a sample's task is the index of the group
containing its label; otherwise classes are grouped by `num_tasks` and
`strategy` (strategy `0`: sequential label ranges; otherwise a seeded
permutation of labels), deterministically in the declared seed. -/
def task_of (tasks : Option (List (List Nat))) (num_tasks strategy seed : Nat)
    (s : DSample) : Nat :=
  match tasks with
  | some groups => groups.findIdx fun g => g.contains s.y
  | none => if strategy = 0 then s.y % num_tasks else (s.y + seed) % num_tasks

/-- Modelled from the spec: `split_dataset` of
`kaizen.utils.pretrain_dataloader` (imported by classification_dataloader but
not among the given sources).  Contract (spec section 4.1): restrict the
dataset to the samples of the requested task indices and also return the
complement; fail with ConfigurationError if a task index exceeds
`num_tasks - 1` or the supplied `tasks` grouping is inconsistent with
`num_tasks`.  `rng` stands for ambient process randomness, which the spec
forbids consulting. -/
def split_dataset (d : DataSet) (tasks : Option (List (List Nat)))
    (task_idxs : List Nat) (num_tasks strategy seed _rng : Nat) :
    Except PrepError (DataSet × DataSet) :=
  if task_idxs.any fun i => decide (num_tasks ≤ i) then
    .error (.configurationError "task_idx exceeds num_tasks - 1")
  else if tasks.any fun groups => decide (groups.length ≠ num_tasks) then
    .error (.configurationError "tasks list inconsistent with num_tasks")
  else
    .ok
      (⟨d.items.filter fun s => decide (task_of tasks num_tasks strategy seed s ∈ task_idxs)⟩,
       ⟨d.items.filter fun s => decide (task_of tasks num_tasks strategy seed s ∉ task_idxs)⟩)

/-- A seeded bounded selection from a list: rotate by the seed, then take a
prefix.  Stands in for seeded sampling inside the replay and stratified
samplers; all randomness is derived from the explicit seed. -/
def seeded_take (l : List DSample) (seed n : Nat) : List DSample :=
  (l.rotate (seed % (l.length + 1))).take n

/-- Modelled from the spec: `split_dataset_subset` of
`kaizen.utils.pretrain_dataloader` (the Replay Sampler; not among the given
sources).  Contract (spec sections 4.2 and 7): return `none` when
`replay_task_idxs` is empty (first task, nothing to replay); otherwise draw a
bounded, seeded sample from the requested tasks' subsets, with `num_samples`
taking precedence over `proportion` when both are given (`proportion` caps a
fraction of each prior task's subset, `num_samples` caps the total); fail
with ConfigurationError when replay is requested but both budgets are unset
(`proportion` left at its `0.` default and `num_samples` at `None`). -/
def split_dataset_subset (d : DataSet) (tasks : Option (List (List Nat)))
    (replay_task_idxs : List Nat) (num_tasks strategy seed : Nat)
    (proportion : ℚ) (num_samples : Option Nat) (_rng : Nat) :
    Except PrepError (Option DataSet) :=
  if replay_task_idxs.isEmpty then .ok none
  else
    match num_samples with
    | some n =>
        let pool := d.items.filter fun s =>
          decide (task_of tasks num_tasks strategy seed s ∈ replay_task_idxs)
        .ok (some ⟨seeded_take pool seed n⟩)
    | none =>
        if 0 < proportion then
          .ok (some ⟨replay_task_idxs.flatMap fun t =>
            let sub := d.items.filter fun s =>
              decide (task_of tasks num_tasks strategy seed s = t)
            seeded_take sub seed (proportion * (sub.length : ℚ)).floor.toNat⟩)
        else
          .error (.configurationError
            "replay enabled but replay_proportion and replay_memory_bank_size are both unset")

/-- Occurrences of class `c` in a `targets` list. -/
def class_count (targets : List Nat) (c : Nat) : Nat :=
  (targets.filter fun y => decide (y = c)).length

/-- Number of samples of class `c` a stratified split of size `train_size`
allocates. -/
def class_take (train_size : ℚ) (targets : List Nat) (c : Nat) : Nat :=
  (train_size * (class_count targets c : ℚ)).floor.toNat

/-- Modelled from the spec: `sklearn.model_selection.train_test_split` with
`train_size` and `stratify=targets`, as the Semi-Supervised Subsampler
contract describes it (spec section 4.3): a seeded stratified selection of
index positions preserving the per-class proportions of `targets`, failing
with ConfigurationError when some class has too few samples to be represented
at the requested fraction.  Only the selected (train) half is returned, as
only `[0]` of the result is used by `prepare_data`. -/
def train_test_split (targets : List Nat) (train_size : ℚ)
    (random_state _rng : Nat) : Except PrepError (List Nat) :=
  let cls := targets.dedup
  if cls.any fun c => decide (class_take train_size targets c = 0) then
    .error (.configurationError
      "stratified subsampling infeasible for the requested fraction")
  else
    .ok (cls.flatMap fun c =>
      let class_positions := ((targets.enum.filter fun p => decide (p.2 = c)).map Prod.fst)
      (class_positions.rotate (random_state % (class_positions.length + 1))).take
        (class_take train_size targets c))

/-- Model of `torch.utils.data.dataset.Subset`: restriction of a dataset to a
list of index positions. -/
def torch_subset (d : DataSet) (idxs : List Nat) : DataSet :=
  ⟨idxs.filterMap fun i => d.items.get? i⟩

/-- Model of `torch.utils.data.dataset.ConcatDataset [a, b]`: order-preserving
concatenation, `b` appended after `a`.  Per the spec's dataset-collaborator
contract the result again exposes `targets`. -/
def concat_dataset (a b : DataSet) : DataSet :=
  ⟨a.items ++ b.items⟩

/-- Model of a `torch.utils.data.DataLoader` as configured by
`prepare_dataloaders`: the wrapped dataset plus the batching options the
source sets. -/
structure Loader where
  dataset : DataSet
  batch_size : Nat
  shuffle : Bool
  drop_last : Bool
deriving DecidableEq

/-- `prepare_dataloaders` (classification_dataloader.py lines 233-262):
training loader shuffled with `drop_last`, validation loader ordered without
`drop_last`. -/
def prepare_dataloaders (train_dataset val_dataset : DataSet) (batch_size : Nat) :
    Loader × Loader :=
  ({ dataset := train_dataset, batch_size := batch_size, shuffle := true, drop_last := true },
   { dataset := val_dataset, batch_size := batch_size, shuffle := false, drop_last := false })

/-- The keyword arguments of `prepare_data` (classification_dataloader.py
lines 265-283) that steer subset selection.  `training_split_strategy` is
embedded as a numeric enum; fractions are exact rationals. -/
structure PrepCfg where
  batch_size : Nat
  semi_supervised : Option ℚ
  training_data_source : String
  training_num_tasks : Nat
  training_tasks : Option (List (List Nat))
  training_task_idx : Nat
  training_split_strategy : Nat
  training_split_seed : Nat
  replay : Bool
  replay_proportion : ℚ
  replay_memory_bank_size : Option Nat
deriving DecidableEq

/-- The `training_data_source` dispatch of `prepare_data`
(classification_dataloader.py lines 312-332): `all_tasks` keeps the full
dataset, `current_task` splits on the single `training_task_idx`,
`seen_tasks` splits on `0..training_task_idx`; any other string leaves
`split_train_dataset` unassigned, surfacing as a `NameError` at its first
use. -/
def primary_split (cfg : PrepCfg) (train_dataset : DataSet) (rng : Nat) :
    Except PrepError DataSet :=
  if cfg.training_data_source = "all_tasks" then .ok train_dataset
  else if cfg.training_data_source = "current_task" then
    match split_dataset train_dataset cfg.training_tasks [cfg.training_task_idx]
        cfg.training_num_tasks cfg.training_split_strategy cfg.training_split_seed rng with
    | .error e => .error e
    | .ok p => .ok p.1
  else if cfg.training_data_source = "seen_tasks" then
    match split_dataset train_dataset cfg.training_tasks
        (List.range (cfg.training_task_idx + 1))
        cfg.training_num_tasks cfg.training_split_strategy cfg.training_split_seed rng with
    | .error e => .error e
    | .ok p => .ok p.1
  else .error (.nameError "split_train_dataset referenced before assignment")

/-- The Replay Sampler invocation of `prepare_data`
(classification_dataloader.py lines 337-346): `split_dataset_subset` on the
prior task indices `[i for i in range(training_task_idx)]` with the
configured budgets. -/
def replay_call (cfg : PrepCfg) (train_dataset : DataSet) (rng : Nat) :
    Except PrepError (Option DataSet) :=
  split_dataset_subset train_dataset cfg.training_tasks
    (List.range cfg.training_task_idx) cfg.training_num_tasks
    cfg.training_split_strategy cfg.training_split_seed
    cfg.replay_proportion cfg.replay_memory_bank_size rng

/-- The replay block of `prepare_data` (classification_dataloader.py lines
334-348): reject `all_tasks` with replay; otherwise, when replay is enabled,
concatenate a non-`None` replay subset after the primary subset and treat a
`None` result as a no-op. -/
def replay_stage (cfg : PrepCfg) (train_dataset split0 : DataSet) (rng : Nat) :
    Except PrepError DataSet :=
  if cfg.training_data_source = "all_tasks" ∧ cfg.replay = true then
    .error (.configurationError
      "replay is not supported when training_data_source is set to all_tasks")
  else if cfg.replay = true then
    match replay_call cfg train_dataset rng with
    | .error e => .error e
    | .ok none => .ok split0
    | .ok (some replay_dataset) => .ok (concat_dataset split0 replay_dataset)
  else .ok split0

/-- The semi-supervised block of `prepare_data` (classification_dataloader.py
lines 350-357): when a fraction is set, stratified-subsample the assembled
subset (seeded by `training_split_seed`) and restrict to the selected index
positions. -/
def semi_stage (cfg : PrepCfg) (split1 : DataSet) (rng : Nat) :
    Except PrepError DataSet :=
  match cfg.semi_supervised with
  | none => .ok split1
  | some fraction =>
    match train_test_split split1.targets fraction cfg.training_split_seed rng with
    | .error e => .error e
    | .ok idxs => .ok (torch_subset split1 idxs)

/-- `prepare_data` (classification_dataloader.py lines 265-365), from the
point where the train/val dataset objects exist (their construction from disk
is the external dataset collaborator, so both datasets are inputs here):
task split, then replay assembly, then semi-supervised subsampling, then the
dataloaders.  `rng` stands for ambient process randomness. -/
def prepare_data (cfg : PrepCfg) (train_dataset val_dataset : DataSet) (rng : Nat) :
    Except PrepError (Loader × Loader) :=
  match primary_split cfg train_dataset rng with
  | .error e => .error e
  | .ok split0 =>
    match replay_stage cfg train_dataset split0 rng with
    | .error e => .error e
    | .ok split1 =>
      match semi_stage cfg split1 rng with
      | .error e => .error e
      | .ok split2 => .ok (prepare_dataloaders split2 val_dataset cfg.batch_size)

/-! ## Concrete data and configurations used to evaluate the pipeline -/

/-- Decidable equality for `Except` results, used to evaluate the pipeline on
concrete inputs. -/
def exceptDecEq {ε α : Type} [DecidableEq ε] [DecidableEq α] :
    DecidableEq (Except ε α) := fun a b =>
  match a, b with
  | .error e₁, .error e₂ =>
    if h : e₁ = e₂ then .isTrue (congrArg Except.error h)
    else .isFalse fun hc => h (Except.error.inj hc)
  | .ok v₁, .ok v₂ =>
    if h : v₁ = v₂ then .isTrue (congrArg Except.ok h)
    else .isFalse fun hc => h (Except.ok.inj hc)
  | .error _, .ok _ => .isFalse fun hc => Except.noConfusion hc
  | .ok _, .error _ => .isFalse fun hc => Except.noConfusion hc

instance {ε α : Type} [DecidableEq ε] [DecidableEq α] : DecidableEq (Except ε α) :=
  exceptDecEq

/-- A small concrete training dataset: two samples of class 0, two of
class 1. -/
def ds0 : DataSet := ⟨[⟨0, 0⟩, ⟨1, 0⟩, ⟨2, 1⟩, ⟨3, 1⟩]⟩

/-- A larger concrete training dataset: four samples of class 0, four of
class 1. -/
def dsW : DataSet :=
  ⟨[⟨0, 0⟩, ⟨1, 0⟩, ⟨2, 0⟩, ⟨3, 0⟩, ⟨4, 1⟩, ⟨5, 1⟩, ⟨6, 1⟩, ⟨7, 1⟩]⟩

/-- A small concrete validation dataset. -/
def dsV : DataSet := ⟨[⟨10, 0⟩, ⟨11, 1⟩]⟩

/-- A baseline configuration: full dataset, no replay, no subsampling. -/
def cfg10 : PrepCfg :=
  { batch_size := 2, semi_supervised := none, training_data_source := "all_tasks",
    training_num_tasks := 2, training_tasks := none, training_task_idx := 0,
    training_split_strategy := 0, training_split_seed := 0, replay := false,
    replay_proportion := 0, replay_memory_bank_size := none }

/-- First task (`training_task_idx = 0`) with replay enabled and both replay
budgets left at their defaults (`replay_proportion = 0.`,
`replay_memory_bank_size = None`). -/
def cfg4 : PrepCfg :=
  { cfg10 with training_data_source := "current_task", replay := true }

/-- Second task with replay enabled, a memory-bank budget, and no
subsampling. -/
def cfg5 : PrepCfg :=
  { cfg10 with
    training_data_source := "current_task", training_task_idx := 1,
    replay := true, replay_memory_bank_size := some 2 }

/-- First task with replay enabled (proportion budget set) and a
semi-supervised fraction of one half. -/
def cfg6 : PrepCfg :=
  { cfg4 with replay_proportion := 1/2, semi_supervised := some (1/2) }

/-- Second task with replay enabled (proportion one half) and an infeasibly
small semi-supervised fraction. -/
def cfg2 : PrepCfg :=
  { cfg10 with
    training_data_source := "current_task", training_task_idx := 1,
    replay := true, replay_proportion := 1/2, semi_supervised := some (1/100) }

/-- Second task with replay enabled (proportion one half) and a feasible
semi-supervised fraction of one half. -/
def cfgW2 : PrepCfg :=
  { cfg10 with
    training_data_source := "current_task", training_task_idx := 1,
    replay := true, replay_proportion := 1/2, semi_supervised := some (1/2) }

/-- The training loader `prepare_data` produces for `cfgW2` on `dsW`. -/
def tlW : Loader :=
  { dataset := ⟨[⟨4, 1⟩, ⟨5, 1⟩, ⟨0, 0⟩]⟩, batch_size := 2,
    shuffle := true, drop_last := true }

/-- The validation loader `prepare_data` produces over `dsV`. -/
def vlW : Loader :=
  { dataset := dsV, batch_size := 2, shuffle := false, drop_last := false }

/-! ## Theorems: distillation loss coupling -/

/-- C1: per training step, given student embeddings `z1, z2` and frozen
teacher embeddings `frozen_z1, frozen_z2`, the wrapper computes
`p1 = predictor(z1)`, `p2 = predictor(z2)`, forms
`distill_loss = (loss_fn(p1, frozen_z1) + loss_fn(p2, frozen_z2)) / 2`, and
returns exactly `primary_loss + distill_lamb * distill_loss` (stated as a
refinement against the spec-worded formula); for `distill_lamb = 0` the
returned loss equals the primary loss exactly. -/
theorem training_step_spec {E : Type} (distill_lamb : ℚ) (predictor : E → E)
    (loss_fn : E → E → ℚ) (primary_loss : ℚ) (z1 z2 frozen_z1 frozen_z2 : E) :
    training_step distill_lamb predictor loss_fn primary_loss z1 z2 frozen_z1 frozen_z2 =
      spec_combined_loss distill_lamb predictor loss_fn primary_loss z1 z2 frozen_z1 frozen_z2 ∧
    training_step 0 predictor loss_fn primary_loss z1 z2 frozen_z1 frozen_z2 = primary_loss := by
  refine ⟨rfl, ?_⟩
  simp [training_step]

/-- C7: for `distill_lamb > 0`, the distill predictor head's learning rate is
`base_lr / distill_lamb` when `distill_lamb < 1` and the base rate when
`distill_lamb ≥ 1`; in particular with `distill_lamb = 2` it is the base
rate. -/
theorem distill_predictor_lr_rule (lr distill_lamb : ℚ) (hpos : 0 < distill_lamb) :
    (distill_lamb < 1 → distill_predictor_lr lr distill_lamb = some (lr / distill_lamb)) ∧
    (1 ≤ distill_lamb → distill_predictor_lr lr distill_lamb = some lr) ∧
    distill_predictor_lr lr 2 = some lr := by
  refine ⟨fun hlt => ?_, fun hge => ?_, ?_⟩
  · simp [distill_predictor_lr, qdiv, not_le.2 hlt, ne_of_gt hpos]
  · simp [distill_predictor_lr, hge]
  · simp [distill_predictor_lr, show (1 : ℚ) ≤ 2 by norm_num]

/-- Witness for C7 at `lr = 5`, `distill_lamb = 2`. -/
theorem distill_predictor_lr_rule_witness :
    (0 : ℚ) < 2 ∧ distill_predictor_lr 5 2 = some 5 :=
  ⟨by decide, (distill_predictor_lr_rule 5 2 (by decide)).2.1 (by decide)⟩

/-- C9: with `distill_lamb = 0` the `distill_lamb < 1` branch of the
learning-rate computation divides the base rate by zero, so accessing
`learnable_params` has no defined value; for every `distill_lamb > 0` the
computation is defined. -/
theorem distill_predictor_lr_div_by_zero (lr weight_decay : ℚ) (parent : List ParamGroup) :
    distill_predictor_lr lr 0 = none ∧
    learnable_params parent lr weight_decay 0 = none ∧
    ∀ distill_lamb : ℚ, 0 < distill_lamb →
      (distill_predictor_lr lr distill_lamb).isSome = true := by
  have h0 : distill_predictor_lr lr 0 = none := by
    simp [distill_predictor_lr, qdiv, show ¬(1 : ℚ) ≤ 0 by norm_num]
  refine ⟨h0, by simp [learnable_params, h0], fun distill_lamb hpos => ?_⟩
  by_cases hge : 1 ≤ distill_lamb
  · simp [distill_predictor_lr, hge]
  · simp [distill_predictor_lr, hge, qdiv, ne_of_gt hpos]

/-- Witness for C9 at `lr = 7`, `weight_decay = 1`, empty parent list,
exercising the positive case at `distill_lamb = 2`. -/
theorem distill_predictor_lr_div_by_zero_witness :
    distill_predictor_lr 7 0 = none ∧
    learnable_params [] 7 1 0 = none ∧
    (distill_predictor_lr 7 2).isSome = true := by
  have h := distill_predictor_lr_div_by_zero 7 1 []
  exact ⟨h.1, h.2.1, h.2.2 2 (by decide)⟩

/-! ## Theorems: data preparation pipeline -/

/-- C3: preparation with `training_data_source = "all_tasks"` and
`replay = True` raises a ConfigurationError; no training subset is produced
and no dataloader is constructed (the result is the error, not a loader
pair). -/
theorem prepare_data_all_tasks_replay_rejected (cfg : PrepCfg)
    (train_dataset val_dataset : DataSet) (rng : Nat)
    (hsrc : cfg.training_data_source = "all_tasks") (hrep : cfg.replay = true) :
    prepare_data cfg train_dataset val_dataset rng =
      .error (.configurationError
        "replay is not supported when training_data_source is set to all_tasks") := by
  simp [prepare_data, primary_split, replay_stage, hsrc, hrep]

/-- Witness for C3: the rejection at a concrete configuration. -/
theorem prepare_data_all_tasks_replay_rejected_witness :
    prepare_data { cfg10 with replay := true } ds0 dsV 0 =
      .error (.configurationError
        "replay is not supported when training_data_source is set to all_tasks") :=
  prepare_data_all_tasks_replay_rejected { cfg10 with replay := true } ds0 dsV 0 rfl rfl

/-- C8: the prepared loaders are a function of the configuration (including
the declared seed) and the input datasets alone; ambient process randomness
(the `rng` argument threaded to every component) cannot influence the
selected subsets, so two runs with the same declared inputs agree
bit-for-bit. -/
theorem prepare_data_seed_only (cfg : PrepCfg) (train_dataset val_dataset : DataSet)
    (rng1 rng2 : Nat) :
    prepare_data cfg train_dataset val_dataset rng1 =
      prepare_data cfg train_dataset val_dataset rng2 := rfl

/-- C10: whenever preparation succeeds, the validation loader is built over
the full validation dataset with the fixed validation options; none of the
continual-learning options can change it. -/
theorem val_loader_frame (cfg : PrepCfg) (train_dataset val_dataset : DataSet)
    (rng : Nat) (train_loader val_loader : Loader)
    (hok : prepare_data cfg train_dataset val_dataset rng = .ok (train_loader, val_loader)) :
    val_loader = { dataset := val_dataset, batch_size := cfg.batch_size,
                   shuffle := false, drop_last := false } := by
  unfold prepare_data at hok
  cases h0 : primary_split cfg train_dataset rng with
  | error e => rw [h0] at hok; exact absurd hok (by simp)
  | ok split0 =>
    rw [h0] at hok; dsimp only at hok
    cases h1 : replay_stage cfg train_dataset split0 rng with
    | error e => rw [h1] at hok; exact absurd hok (by simp)
    | ok split1 =>
      rw [h1] at hok; dsimp only at hok
      cases h2 : semi_stage cfg split1 rng with
      | error e => rw [h2] at hok; exact absurd hok (by simp)
      | ok split2 =>
        rw [h2] at hok
        simp only [Except.ok.injEq] at hok
        have hsnd := congrArg Prod.snd hok
        simpa [prepare_dataloaders] using hsnd.symm

/-- Witness for C10 at the baseline configuration. -/
theorem val_loader_frame_witness :
    ({ dataset := dsV, batch_size := 2, shuffle := false, drop_last := false } : Loader) =
      { dataset := dsV, batch_size := cfg10.batch_size,
        shuffle := false, drop_last := false } :=
  val_loader_frame cfg10 ds0 dsV 0
    { dataset := ds0, batch_size := 2, shuffle := true, drop_last := true }
    { dataset := dsV, batch_size := 2, shuffle := false, drop_last := false } (by decide)

/-- Membership in a seeded bounded selection implies membership in the
underlying list. -/
theorem mem_of_seeded_take {l : List DSample} {seed n : Nat} {s : DSample}
    (h : s ∈ seeded_take l seed n) : s ∈ l :=
  List.mem_rotate.1 (List.mem_of_mem_take h)

/-- C5: the Replay Sampler, as invoked by data preparation, draws only from
the task indices `0 .. training_task_idx - 1`: every sample of a returned
replay subset belongs to a task strictly below the current one, never to the
current or a future task. -/
theorem replay_call_prior_tasks_only (cfg : PrepCfg) (train_dataset : DataSet)
    (rng : Nat) (replay_dataset : DataSet)
    (h : replay_call cfg train_dataset rng = .ok (some replay_dataset)) :
    ∀ s ∈ replay_dataset.items,
      task_of cfg.training_tasks cfg.training_num_tasks cfg.training_split_strategy
        cfg.training_split_seed s < cfg.training_task_idx := by
  intro s hs
  unfold replay_call split_dataset_subset at h
  by_cases hemp : (List.range cfg.training_task_idx).isEmpty = true
  · rw [if_pos hemp] at h
    exact absurd h (by simp)
  · rw [if_neg hemp] at h
    cases hns : cfg.replay_memory_bank_size with
    | some n =>
      rw [hns] at h; dsimp only at h
      simp only [Except.ok.injEq, Option.some.injEq] at h
      rw [← h] at hs
      have hpool := mem_of_seeded_take hs
      have hmem := (List.mem_filter.1 hpool).2
      exact List.mem_range.1 (of_decide_eq_true hmem)
    | none =>
      rw [hns] at h; dsimp only at h
      by_cases hp : 0 < cfg.replay_proportion
      · rw [if_pos hp] at h
        simp only [Except.ok.injEq, Option.some.injEq] at h
        rw [← h] at hs
        obtain ⟨t, ht, hst⟩ := List.mem_flatMap.1 hs
        have hsub := mem_of_seeded_take hst
        have hmem := (List.mem_filter.1 hsub).2
        rw [of_decide_eq_true hmem]
        exact List.mem_range.1 ht
      · rw [if_neg hp] at h
        exact absurd h (by simp)

/-- Witness for C5: at `cfg5` on `ds0` the replay subset is
`[⟨0,0⟩, ⟨1,0⟩]` and its first sample's task precedes the current task. -/
theorem replay_call_prior_tasks_only_witness :
    task_of cfg5.training_tasks cfg5.training_num_tasks cfg5.training_split_strategy
      cfg5.training_split_seed ⟨0, 0⟩ < cfg5.training_task_idx :=
  replay_call_prior_tasks_only cfg5 ds0 0 ⟨[⟨0, 0⟩, ⟨1, 0⟩]⟩ (by decide) ⟨0, 0⟩ (by decide)

/-- Every error of the Task Partitioner is a ConfigurationError. -/
theorem split_dataset_error_confError {d : DataSet} {tasks : Option (List (List Nat))}
    {task_idxs : List Nat} {num_tasks strategy seed rng : Nat} {e : PrepError}
    (h : split_dataset d tasks task_idxs num_tasks strategy seed rng = .error e) :
    ∃ msg, e = .configurationError msg := by
  unfold split_dataset at h
  by_cases h1 : (task_idxs.any fun i => decide (num_tasks ≤ i)) = true
  · rw [if_pos h1] at h
    exact ⟨_, (Except.error.inj h).symm⟩
  · rw [if_neg h1] at h
    by_cases h2 : (tasks.any fun groups => decide (groups.length ≠ num_tasks)) = true
    · rw [if_pos h2] at h
      exact ⟨_, (Except.error.inj h).symm⟩
    · rw [if_neg h2] at h
      exact absurd h (by simp)

/-- With a recognized non-`all_tasks` data source, every error of the primary
split is a ConfigurationError. -/
theorem primary_split_error_confError {cfg : PrepCfg} {train_dataset : DataSet}
    {rng : Nat} {e : PrepError}
    (hsrc : cfg.training_data_source = "current_task" ∨
      cfg.training_data_source = "seen_tasks")
    (h : primary_split cfg train_dataset rng = .error e) :
    ∃ msg, e = .configurationError msg := by
  unfold primary_split at h
  rcases hsrc with hs | hs
  · have hne : ¬cfg.training_data_source = "all_tasks" := by rw [hs]; decide
    rw [if_neg hne, if_pos hs] at h
    cases hsd : split_dataset train_dataset cfg.training_tasks [cfg.training_task_idx]
        cfg.training_num_tasks cfg.training_split_strategy cfg.training_split_seed rng with
    | error e' =>
      rw [hsd] at h; dsimp only at h
      exact (Except.error.inj h) ▸ split_dataset_error_confError hsd
    | ok p =>
      rw [hsd] at h
      exact absurd h (by simp)
  · have hne : ¬cfg.training_data_source = "all_tasks" := by rw [hs]; decide
    have hne' : ¬cfg.training_data_source = "current_task" := by rw [hs]; decide
    rw [if_neg hne, if_neg hne', if_pos hs] at h
    cases hsd : split_dataset train_dataset cfg.training_tasks
        (List.range (cfg.training_task_idx + 1))
        cfg.training_num_tasks cfg.training_split_strategy cfg.training_split_seed rng with
    | error e' =>
      rw [hsd] at h; dsimp only at h
      exact (Except.error.inj h) ▸ split_dataset_error_confError hsd
    | ok p =>
      rw [hsd] at h
      exact absurd h (by simp)

/-- C4 counterexample: with replay enabled and both budgets unset but
`training_task_idx = 0`, the Replay Sampler's empty-prior-tasks guard fires
first and preparation succeeds — no ConfigurationError is raised, refuting
the claim as universally stated. -/
theorem replay_budget_unset_not_rejected_at_task0 :
    cfg4.replay = true ∧ cfg4.replay_proportion = 0 ∧
    cfg4.replay_memory_bank_size = none ∧
    prepare_data cfg4 ds0 dsV 0 =
      .ok ({ dataset := ⟨[⟨0, 0⟩, ⟨1, 0⟩]⟩, batch_size := 2,
             shuffle := true, drop_last := true },
           { dataset := dsV, batch_size := 2, shuffle := false, drop_last := false }) :=
  ⟨rfl, rfl, rfl, by decide⟩

/-- C4 (amended): with a recognized `training_data_source`, replay enabled,
at least one prior task (`training_task_idx ≥ 1`), and both
`replay_proportion` and `replay_memory_bank_size` unset, data preparation
raises a ConfigurationError (for `training_task_idx = 0` the Replay Sampler's
empty-prior-tasks guard returns `None` first and no error is raised). -/
theorem replay_budget_unset_rejected (cfg : PrepCfg)
    (train_dataset val_dataset : DataSet) (rng : Nat)
    (hrep : cfg.replay = true) (hprop : cfg.replay_proportion = 0)
    (hbank : cfg.replay_memory_bank_size = none)
    (hidx : 0 < cfg.training_task_idx)
    (hsrc : cfg.training_data_source = "all_tasks" ∨
      cfg.training_data_source = "current_task" ∨
      cfg.training_data_source = "seen_tasks") :
    ∃ msg, prepare_data cfg train_dataset val_dataset rng =
      .error (.configurationError msg) := by
  rcases hsrc with hs | hs
  · exact ⟨"replay is not supported when training_data_source is set to all_tasks",
      by simp [prepare_data, primary_split, replay_stage, hs, hrep]⟩
  · have hne : ¬cfg.training_data_source = "all_tasks" := by
      rcases hs with hs | hs <;> rw [hs] <;> decide
    have hcall : replay_call cfg train_dataset rng =
        .error (.configurationError
          "replay enabled but replay_proportion and replay_memory_bank_size are both unset") := by
      unfold replay_call split_dataset_subset
      have hnemp : ((List.range cfg.training_task_idx).isEmpty) = false := by
        simp [List.isEmpty_iff, List.range_eq_nil]
        omega
      rw [hbank, hprop]
      simp [hnemp]
    cases h0 : primary_split cfg train_dataset rng with
    | error e =>
      obtain ⟨msg, rfl⟩ := primary_split_error_confError hs h0
      exact ⟨msg, by simp [prepare_data, h0]⟩
    | ok split0 =>
      refine ⟨"replay enabled but replay_proportion and replay_memory_bank_size are both unset", ?_⟩
      simp [prepare_data, h0, replay_stage, hne, hrep, hcall]

/-- Witness for C4 (amended) at the second task. -/
theorem replay_budget_unset_rejected_witness :
    ∃ msg, prepare_data { cfg4 with training_task_idx := 1 } ds0 dsV 0 =
      .error (.configurationError msg) :=
  replay_budget_unset_rejected { cfg4 with training_task_idx := 1 } ds0 dsV 0
    rfl rfl rfl (by decide) (Or.inr (Or.inl rfl))

section RatEval

attribute [local semireducible] Rat.mul Rat.inv Rat.add Rat.sub

/-- C6 counterexample: with `training_task_idx = 0`, `replay = True` and a
semi-supervised fraction of one half, the Replay Sampler does return `None`
and concatenation is skipped, but the final training subset is the
subsampled half of the task-0 subset, not the task-0 subset itself —
refuting the claim for configurations with `semi_supervised` set. -/
theorem first_task_subset_changes_with_semi :
    cfg6.training_task_idx = 0 ∧ cfg6.replay = true ∧
    prepare_data cfg6 ds0 dsV 0 =
      .ok ({ dataset := ⟨[⟨0, 0⟩]⟩, batch_size := 2,
             shuffle := true, drop_last := true },
           { dataset := dsV, batch_size := 2, shuffle := false, drop_last := false }) ∧
    primary_split cfg6 ds0 0 = .ok ⟨[⟨0, 0⟩, ⟨1, 0⟩]⟩ ∧
    (⟨[⟨0, 0⟩]⟩ : DataSet) ≠ ⟨[⟨0, 0⟩, ⟨1, 0⟩]⟩ :=
  ⟨rfl, rfl, by decide, by decide, by decide⟩

end RatEval

/-- C6 (amended): with `training_task_idx = 0`, `replay = True` and
`semi_supervised` unset, the Replay Sampler returns `None`, the orchestrator
skips concatenation, and the final training subset is exactly the task-0
subset produced by the Task Partitioner, with no size change. -/
theorem first_task_replay_noop (cfg : PrepCfg) (train_dataset val_dataset : DataSet)
    (rng : Nat) (train_loader val_loader : Loader)
    (hidx : cfg.training_task_idx = 0) (hrep : cfg.replay = true)
    (hsemi : cfg.semi_supervised = none)
    (hok : prepare_data cfg train_dataset val_dataset rng = .ok (train_loader, val_loader)) :
    replay_call cfg train_dataset rng = .ok none ∧
    ∃ p, split_dataset train_dataset cfg.training_tasks [0] cfg.training_num_tasks
        cfg.training_split_strategy cfg.training_split_seed rng = .ok p ∧
      train_loader.dataset = p.1 := by
  have hcall : replay_call cfg train_dataset rng = .ok none := by
    simp [replay_call, split_dataset_subset, hidx]
  refine ⟨hcall, ?_⟩
  by_cases hall : cfg.training_data_source = "all_tasks"
  · exact absurd hok (by simp [prepare_data, primary_split, replay_stage, hall, hrep])
  · have hstage : ∀ split0, replay_stage cfg train_dataset split0 rng = .ok split0 :=
      fun split0 => by simp [replay_stage, hall, hrep, hcall]
    have hsem : ∀ split0, semi_stage cfg split0 rng = .ok split0 :=
      fun split0 => by simp [semi_stage, hsemi]
    unfold prepare_data primary_split at hok
    rw [if_neg hall] at hok
    by_cases hcur : cfg.training_data_source = "current_task"
    · rw [if_pos hcur, hidx] at hok
      cases hsd : split_dataset train_dataset cfg.training_tasks [0] cfg.training_num_tasks
          cfg.training_split_strategy cfg.training_split_seed rng with
      | error e => rw [hsd] at hok; exact absurd hok (by simp)
      | ok p =>
        rw [hsd] at hok; dsimp only at hok
        rw [hstage p.1] at hok; dsimp only at hok
        rw [hsem p.1] at hok; dsimp only at hok
        simp only [Except.ok.injEq] at hok
        have hd := congrArg Loader.dataset (congrArg Prod.fst hok)
        exact ⟨p, rfl, by simpa [prepare_dataloaders] using hd.symm⟩
    · by_cases hseen : cfg.training_data_source = "seen_tasks"
      · rw [if_neg hcur, if_pos hseen, hidx,
          show List.range (0 + 1) = [0] from by decide] at hok
        cases hsd : split_dataset train_dataset cfg.training_tasks [0] cfg.training_num_tasks
            cfg.training_split_strategy cfg.training_split_seed rng with
        | error e => rw [hsd] at hok; exact absurd hok (by simp)
        | ok p =>
          rw [hsd] at hok; dsimp only at hok
          rw [hstage p.1] at hok; dsimp only at hok
          rw [hsem p.1] at hok; dsimp only at hok
          simp only [Except.ok.injEq] at hok
          have hd := congrArg Loader.dataset (congrArg Prod.fst hok)
          exact ⟨p, rfl, by simpa [prepare_dataloaders] using hd.symm⟩
      · rw [if_neg hcur, if_neg hseen] at hok
        exact absurd hok (by simp)

/-- Witness for C6 (amended): at `cfg4` on `ds0` the final training subset is
exactly the task-0 subset `[⟨0,0⟩, ⟨1,0⟩]`. -/
theorem first_task_replay_noop_witness :
    replay_call cfg4 ds0 0 = .ok none ∧
    ∃ p, split_dataset ds0 cfg4.training_tasks [0] cfg4.training_num_tasks
        cfg4.training_split_strategy cfg4.training_split_seed 0 = .ok p ∧
      (⟨[⟨0, 0⟩, ⟨1, 0⟩]⟩ : DataSet) = p.1 :=
  first_task_replay_noop cfg4 ds0 dsV 0
    { dataset := ⟨[⟨0, 0⟩, ⟨1, 0⟩]⟩, batch_size := 2, shuffle := true, drop_last := true }
    { dataset := dsV, batch_size := 2, shuffle := false, drop_last := false }
    rfl rfl rfl (by decide)

section RatEvalB

attribute [local semireducible] Rat.mul Rat.inv Rat.add Rat.sub

/-- C2 counterexample: with replay enabled and the semi-supervised fraction
`1/100`, stratified subsampling of the replay-augmented subset (three
samples, at most two per class) is infeasible and preparation raises a
ConfigurationError — the subsampling does not succeed, refuting the claim's
universal success assertion. -/
theorem replay_semi_subsample_can_fail :
    cfg2.replay = true ∧ cfg2.semi_supervised = some (1/100) ∧
    prepare_data cfg2 ds0 dsV 0 =
      .error (.configurationError
        "stratified subsampling infeasible for the requested fraction") :=
  ⟨rfl, rfl, by decide⟩

end RatEvalB

/-- C2 (amended): for every configuration with replay enabled and a non-None
semi-supervised fraction for which data preparation succeeds, preparation
composed in the order task split → replay concatenation → semi-supervised
subsampling: the primary task subset came first, any non-`None` replay subset
was appended after it (order-preserving), the stratified subsampling was
applied to (and succeeded on) the replay-augmented subset, and the final
training subset restricts that subset.  (Subsampling can instead fail with a
ConfigurationError for infeasible fractions, in which case no subset is
produced.) -/
theorem prepare_data_composition (cfg : PrepCfg) (train_dataset val_dataset : DataSet)
    (rng : Nat) (fraction : ℚ) (train_loader val_loader : Loader)
    (hrep : cfg.replay = true) (hsemi : cfg.semi_supervised = some fraction)
    (hok : prepare_data cfg train_dataset val_dataset rng = .ok (train_loader, val_loader)) :
    ∃ split0 split1 idxs,
      primary_split cfg train_dataset rng = .ok split0 ∧
      replay_stage cfg train_dataset split0 rng = .ok split1 ∧
      (replay_call cfg train_dataset rng = .ok none → split1 = split0) ∧
      (∀ replay_dataset, replay_call cfg train_dataset rng = .ok (some replay_dataset) →
        split1.items = split0.items ++ replay_dataset.items) ∧
      train_test_split split1.targets fraction cfg.training_split_seed rng = .ok idxs ∧
      train_loader.dataset = torch_subset split1 idxs ∧
      ∀ s ∈ train_loader.dataset.items, s ∈ split1.items := by
  unfold prepare_data at hok
  cases h0 : primary_split cfg train_dataset rng with
  | error e => rw [h0] at hok; exact absurd hok (by simp)
  | ok split0 =>
    rw [h0] at hok; dsimp only at hok
    cases h1 : replay_stage cfg train_dataset split0 rng with
    | error e => rw [h1] at hok; exact absurd hok (by simp)
    | ok split1 =>
      rw [h1] at hok; dsimp only at hok
      have h1' := h1
      unfold replay_stage at h1'
      by_cases hc : cfg.training_data_source = "all_tasks" ∧ cfg.replay = true
      · rw [if_pos hc] at h1'; exact absurd h1' (by simp)
      · rw [if_neg hc, if_pos hrep] at h1'
        have hnoop : replay_call cfg train_dataset rng = .ok none → split1 = split0 := by
          intro hcall
          rw [hcall] at h1'; dsimp only at h1'
          exact (Except.ok.inj h1').symm
        have happend : ∀ replay_dataset,
            replay_call cfg train_dataset rng = .ok (some replay_dataset) →
            split1.items = split0.items ++ replay_dataset.items := by
          intro replay_dataset hcall
          rw [hcall] at h1'; dsimp only at h1'
          rw [← Except.ok.inj h1']
          rfl
        cases h2 : semi_stage cfg split1 rng with
        | error e => rw [h2] at hok; exact absurd hok (by simp)
        | ok split2 =>
          rw [h2] at hok; dsimp only at hok
          have h2' := h2
          unfold semi_stage at h2'
          rw [hsemi] at h2'; dsimp only at h2'
          cases hts : train_test_split split1.targets fraction cfg.training_split_seed rng with
          | error e => rw [hts] at h2'; exact absurd h2' (by simp)
          | ok idxs =>
            rw [hts] at h2'; dsimp only at h2'
            have hsp2 : torch_subset split1 idxs = split2 := Except.ok.inj h2'
            simp only [Except.ok.injEq] at hok
            have htld : train_loader.dataset = split2 := by
              have hd := congrArg Loader.dataset (congrArg Prod.fst hok)
              simpa [prepare_dataloaders] using hd.symm
            refine ⟨split0, split1, idxs, rfl, h1, hnoop, happend, hts, ?_, ?_⟩
            · rw [htld, ← hsp2]
            · intro s hs
              rw [htld, ← hsp2] at hs
              simp only [torch_subset] at hs
              obtain ⟨i, _, hi⟩ := List.mem_filterMap.1 hs
              exact List.get?_mem hi

section RatEvalC

attribute [local semireducible] Rat.mul Rat.inv Rat.add Rat.sub

/-- Witness for C2 (amended): at `cfgW2` on `dsW` the primary subset is the
class-1 samples, the replay subset `[⟨0,0⟩, ⟨1,0⟩]` is appended after it, and
the stratified half restricts the six-sample mixture to `tlW`'s three
samples. -/
theorem prepare_data_composition_witness :
    ∃ split0 split1 idxs,
      primary_split cfgW2 dsW 0 = .ok split0 ∧
      replay_stage cfgW2 dsW split0 0 = .ok split1 ∧
      (replay_call cfgW2 dsW 0 = .ok none → split1 = split0) ∧
      (∀ replay_dataset, replay_call cfgW2 dsW 0 = .ok (some replay_dataset) →
        split1.items = split0.items ++ replay_dataset.items) ∧
      train_test_split split1.targets (1/2) cfgW2.training_split_seed 0 = .ok idxs ∧
      tlW.dataset = torch_subset split1 idxs ∧
      ∀ s ∈ tlW.dataset.items, s ∈ split1.items :=
  prepare_data_composition cfgW2 dsW dsV 0 (1/2) tlW vlW rfl rfl (by decide)

end RatEvalC

end Kaizen
